import Mathlib

/-!
Shallow embedding of the SwapTezos atomic-swap coordination core:
the crypto utilities, the Ethereum HTLC escrow contract, and the
backend coordinator services (swap creation, claim, secret reveal,
monitoring, timeout/refund handling), with theorems settling the
specification claims about them.

External effects are made explicit: the sha256 / keccak digests are
parameters, ledger adapters and the database are environment records
whose calls return Except values, and randomness is an explicit byte
list.  Statuses are kept as the literal strings the TypeScript code
compares against.
-/

namespace SwapTezos

/-! ## CryptoUtils (src/backend/src/utils/crypto.ts)

The digest itself is external (node crypto sha256); it is passed in as
a function parameter.  randomBytes is passed in as the list of bytes
the system random source produced. -/

/-- Hex digit character for a value below 16, as Buffer.toString produces. -/
def hexDigit (n : Nat) : Char :=
  if n < 10 then Char.ofNat (48 + n) else Char.ofNat (87 + n)

/-- Two-character lowercase hex rendering of one byte. -/
def byteToHex (b : Nat) : String :=
  String.mk [hexDigit (b / 16 % 16), hexDigit (b % 16)]

namespace CryptoUtils

/-- generateSecret: crypto.randomBytes of 32 bytes, hex-encoded
(the hex encodings of the bytes concatenated in order). -/
def generateSecret : List Nat → String
  | [] => ""
  | b :: bs => byteToHex b ++ generateSecret bs

/-- createHash: sha256 digest of the secret, hex-encoded; the digest
function is the external parameter. -/
def createHash (sha256 : String → String) (secret : String) : String :=
  sha256 secret

/-- verifySecret: recompute the digest and compare. -/
def verifySecret (sha256 : String → String) (secret hash : String) : Bool :=
  createHash sha256 secret == hash

end CryptoUtils

theorem byteToHex_length (b : Nat) : (byteToHex b).length = 2 := rfl

theorem generateSecret_length (randomBytes : List Nat) :
    (CryptoUtils.generateSecret randomBytes).length = 2 * randomBytes.length := by
  induction randomBytes with
  | nil => rfl
  | cons b bs ih =>
    rw [CryptoUtils.generateSecret, String.length_append, byteToHex_length, ih,
      List.length_cons]
    ring

/-! ## HTLCEscrow contract (src/backend/contracts/ethereum/HTLCEscrow.sol)

Addresses and bytes32 values are modelled as Nat (0 is the zero
address / zero hash); keccak256 over one bytes32 is the external
digest parameter.  A revert is an Except.error carrying the require
message; on error no state change or transfer happens.  Solidity 0.8
checked arithmetic cannot overflow at the magnitudes reachable here
(feePercentage is capped at 500), so Nat arithmetic is exact. -/

namespace HTLCEscrow

inductive SwapStatus
  | ACTIVE
  | CLAIMED
  | REFUNDED
deriving DecidableEq, Repr

structure Swap where
  swapId : Nat
  maker : Nat
  taker : Nat
  amount : Nat
  tokenAddress : Nat
  secretHash : Nat
  timelock : Nat
  status : SwapStatus
  createdAt : Nat
deriving DecidableEq, Repr

structure State where
  nextSwapId : Nat := 1
  swaps : List (Nat × Swap) := []
  usedSecretHashes : List Nat := []
  feePercentage : Nat := 10
  collectedFees : Nat := 0
  paused : Bool := false
deriving DecidableEq, Repr

/-- A value transfer the contract performs: outgoing ETH call, outgoing
ERC20 safeTransfer, or incoming ERC20 safeTransferFrom the sender. -/
inductive Transfer
  | eth (dest amount : Nat)
  | token (tokenAddress dest amount : Nat)
  | tokenIn (tokenAddress sender amount : Nat)
deriving DecidableEq, Repr

/-- External ERC20 view calls consumed by createSwap; allowance is the
amount the owner approved to this escrow contract. -/
structure TokenEnv where
  balanceOf : Nat → Nat → Nat
  allowance : Nat → Nat → Nat

/-- Mapping read: Solidity returns the zero struct when absent; the
SWAP_NOT_FOUND require tests maker != 0, so an absent entry is none here. -/
def lookupSwap (swaps : List (Nat × Swap)) (swapId : Nat) : Option Swap :=
  match swaps.find? (fun p => p.1 == swapId) with
  | some p => some p.2
  | none => none

def storeSwap (swaps : List (Nat × Swap)) (swapId : Nat) (s : Swap) :
    List (Nat × Swap) :=
  match swaps with
  | [] => [(swapId, s)]
  | p :: rest =>
    if p.1 == swapId then (swapId, s) :: rest else p :: storeSwap rest swapId s

/-- createSwap: requires checked in source order, then the ETH or ERC20
branch, then the swap record and usedSecretHashes update. -/
def createSwap (env : TokenEnv) (st : State)
    (sender msgValue taker secretHash timelockHours tokenAddress tokenAmount
      blockTimestamp : Nat) : Except String (State × List Transfer) := do
  if st.paused then throw "PAUSED"
  if timelockHours < 1 then throw "TIMELOCK_TOO_SHORT"
  if 168 < timelockHours then throw "TIMELOCK_TOO_LONG"
  if secretHash = 0 then throw "INVALID_SECRET_HASH"
  if st.usedSecretHashes.contains secretHash then throw "SECRET_HASH_ALREADY_USED"
  let timelock := blockTimestamp + timelockHours * 3600
  let swapId := st.nextSwapId
  let branch : Except String (Nat × Nat × List Transfer) :=
    if tokenAddress = 0 then do
      if msgValue = 0 then throw "AMOUNT_REQUIRED"
      let feeAmount := msgValue * st.feePercentage / 10000
      pure (msgValue - feeAmount, st.collectedFees + feeAmount, [])
    else do
      if tokenAmount = 0 then throw "TOKEN_AMOUNT_REQUIRED"
      if msgValue ≠ 0 then throw "NO_ETH_FOR_TOKEN_SWAP"
      if env.balanceOf tokenAddress sender < tokenAmount then
        throw "INSUFFICIENT_TOKEN_BALANCE"
      if env.allowance tokenAddress sender < tokenAmount then
        throw "INSUFFICIENT_ALLOWANCE"
      pure (tokenAmount, st.collectedFees, [Transfer.tokenIn tokenAddress sender tokenAmount])
  let (amount, fees, transfers) ← branch
  let swap : Swap :=
    { swapId := swapId, maker := sender, taker := taker, amount := amount,
      tokenAddress := tokenAddress, secretHash := secretHash,
      timelock := timelock, status := SwapStatus.ACTIVE,
      createdAt := blockTimestamp }
  pure ({ st with
            nextSwapId := st.nextSwapId + 1,
            swaps := storeSwap st.swaps swapId swap,
            collectedFees := fees,
            usedSecretHashes := st.usedSecretHashes ++ [secretHash] },
        transfers)

/-- claimSwap: reveal the secret; requires in source order, then status
update and payout of the recorded amount to the claimer. -/
def claimSwap (keccak256 : Nat → Nat) (st : State)
    (sender swapId secret blockTimestamp : Nat) :
    Except String (State × List Transfer) :=
  if st.paused then Except.error "PAUSED"
  else
    match lookupSwap st.swaps swapId with
    | none => Except.error "SWAP_NOT_FOUND"
    | some swap =>
      if swap.maker = 0 then Except.error "SWAP_NOT_FOUND"
      else if swap.status ≠ SwapStatus.ACTIVE then Except.error "SWAP_NOT_ACTIVE"
      else if ¬ blockTimestamp < swap.timelock then Except.error "SWAP_EXPIRED"
      else if keccak256 secret ≠ swap.secretHash then Except.error "INVALID_SECRET"
      else if swap.taker ≠ 0 ∧ sender ≠ swap.taker then
        Except.error "UNAUTHORIZED_CLAIMER"
      else
        let swap := { swap with status := SwapStatus.CLAIMED }
        let payout :=
          if swap.tokenAddress = 0 then Transfer.eth sender swap.amount
          else Transfer.token swap.tokenAddress sender swap.amount
        Except.ok ({ st with swaps := storeSwap st.swaps swapId swap }, [payout])

/-- refundSwap: return an expired ACTIVE escrow to its maker. -/
def refundSwap (st : State) (sender swapId blockTimestamp : Nat) :
    Except String (State × List Transfer) :=
  match lookupSwap st.swaps swapId with
  | none => Except.error "SWAP_NOT_FOUND"
  | some swap =>
    if swap.maker = 0 then Except.error "SWAP_NOT_FOUND"
    else if swap.status ≠ SwapStatus.ACTIVE then Except.error "SWAP_NOT_ACTIVE"
    else if blockTimestamp < swap.timelock then Except.error "SWAP_NOT_EXPIRED"
    else if sender ≠ swap.maker then Except.error "UNAUTHORIZED_REFUNDER"
    else
      let swap := { swap with status := SwapStatus.REFUNDED }
      let payout :=
        if swap.tokenAddress = 0 then Transfer.eth swap.maker swap.amount
        else Transfer.token swap.tokenAddress swap.maker swap.amount
      Except.ok ({ st with swaps := storeSwap st.swaps swapId swap }, [payout])

end HTLCEscrow

/-! ## Database writes issued by the backend services

Each constructor records one INSERT / UPSERT / UPDATE the TypeScript
code performs, with the values it binds. -/

inductive DbWrite
  | insertCrossChainSwap (id secret_hash : String)
      (ethereum_swap_id tezos_swap_id : Option Nat)
      (fusion_order_hash : Option String) (status : String)
      (expiration_time : Nat)
  | upsertSwapSecret (swap_id secret : String)
  | insertOrderSecret (order_hash secret : String)
  | updateSwapStatus (id status : String)
  | updateSwapSecret (swap_id secret : String)
deriving DecidableEq, Repr

/-! ## FusionOrderService (src/backend/src/services/fusionOrderService.ts)

Only the secret-persistence part is needed by the claims:
storeOrderSecret runs at order creation and INSERTs the raw secret
into the order_secrets table, keyed by the order hash. -/

namespace FusionOrderService

/-- storeOrderSecret: the database write it performs (the CREATE TABLE
IF NOT EXISTS that precedes it is schema setup, not a data write). -/
def storeOrderSecret (orderHash secret : String) : List DbWrite :=
  [DbWrite.insertOrderSecret orderHash secret]

end FusionOrderService

/-! ## CrossChainSwapService (second service of
src/backend/src/services/crossChainResolverService.ts)

The swap-creation pipeline, the stored rows, and claimSwap.  External
effects are an environment: the sha256 digest, the random bytes
generateSecret consumes, the clock, and the outcomes of the Fusion+
order submission and of the two HTLC creation calls. -/

namespace CrossChainSwapService

structure CrossChainSwapParams where
  makerAddress : String
  tezosRecipient : String
  sourceChain : String
  destChain : String
  sourceToken : String
  destToken : String
  sourceAmount : String
  destAmount : String
  timelockHours : Nat
deriving DecidableEq, Repr

structure CrossChainSwapResult where
  swapId : String
  secretHash : String
  ethereumSwapId : Option Nat := none
  fusionOrderHash : Option String := none
  tezosSwapId : Option Nat := none
  status : String
  expirationTime : Nat
deriving DecidableEq, Repr

/-- One escrow-creation call issued to a ledger (the Fusion+ order
submission or an HTLC create), with the arguments the code passes. -/
structure HtlcCreate where
  chain : String
  recipient : String
  amount : String
  secretHash : String
  timelockHours : Nat
deriving DecidableEq, Repr

structure CreationEnv where
  sha256 : String → String
  randomBytes : List Nat
  nowMs : Nat
  fusionOrderHash : Except String String
  tezosHtlcId : Except String Nat
  ethereumHtlcId : Except String Nat

/-- createEthereumToTezosSwap: submit the Fusion+ order (failure caught,
bridge-only mode), then create the Tezos counter HTLC with exactly
params.timelockHours; a Tezos failure marks failed and rethrows.  The
second component lists every ledger creation call attempted. -/
def createEthereumToTezosSwap (env : CreationEnv)
    (params : CrossChainSwapParams) (secretHash : String)
    (result : CrossChainSwapResult) :
    Except String (CrossChainSwapResult × List HtlcCreate) :=
  let fusionCall : HtlcCreate :=
    { chain := "ethereum-fusion", recipient := params.makerAddress,
      amount := params.sourceAmount, secretHash := secretHash,
      timelockHours := params.timelockHours }
  let result :=
    match env.fusionOrderHash with
    | Except.ok h =>
        { result with fusionOrderHash := some h, status := "ethereum_locked" }
    | Except.error _ => { result with status := "ethereum_locked" }
  let tezosCall : HtlcCreate :=
    { chain := "tezos", recipient := params.tezosRecipient,
      amount := params.destAmount, secretHash := secretHash,
      timelockHours := params.timelockHours }
  match env.tezosHtlcId with
  | Except.ok htlcId =>
      Except.ok ({ result with tezosSwapId := some htlcId,
                               status := "both_locked" },
                 [fusionCall, tezosCall])
  | Except.error e => Except.error e

/-- createTezosToEthereumSwap: create the Tezos HTLC first (failure
rethrown), then the Ethereum HTLC, both with params.timelockHours. -/
def createTezosToEthereumSwap (env : CreationEnv)
    (params : CrossChainSwapParams) (secretHash : String)
    (result : CrossChainSwapResult) :
    Except String (CrossChainSwapResult × List HtlcCreate) :=
  let tezosCall : HtlcCreate :=
    { chain := "tezos", recipient := params.makerAddress,
      amount := params.sourceAmount, secretHash := secretHash,
      timelockHours := params.timelockHours }
  match env.tezosHtlcId with
  | Except.error e => Except.error e
  | Except.ok tezosId =>
    let result := { result with tezosSwapId := some tezosId,
                                status := "tezos_locked" }
    let ethCall : HtlcCreate :=
      { chain := "ethereum", recipient := params.tezosRecipient,
        amount := params.destAmount, secretHash := secretHash,
        timelockHours := params.timelockHours }
    match env.ethereumHtlcId with
    | Except.error e => Except.error e
    | Except.ok ethId =>
        Except.ok ({ result with ethereumSwapId := some ethId,
                                 status := "both_locked" },
                   [tezosCall, ethCall])

/-- storeSwapDetails: INSERT the swap row (hash, ids, status, expiry)
into cross_chain_swaps, then UPSERT the raw secret into swap_secrets. -/
def storeSwapDetails (result : CrossChainSwapResult) (secret : String) :
    List DbWrite :=
  [DbWrite.insertCrossChainSwap result.swapId result.secretHash
      result.ethereumSwapId result.tezosSwapId result.fusionOrderHash
      result.status result.expirationTime,
   DbWrite.upsertSwapSecret result.swapId secret]

/-- createCrossChainSwap: generate the secret commitment, run the
direction-specific leg creation, then persist.  No lookup of existing
swaps (and no hash-uniqueness check) occurs anywhere in the pipeline. -/
def createCrossChainSwap (env : CreationEnv) (params : CrossChainSwapParams) :
    Except String (CrossChainSwapResult × List HtlcCreate × List DbWrite) := do
  let secret := CryptoUtils.generateSecret env.randomBytes
  let secretHash := CryptoUtils.createHash env.sha256 secret
  let swapId := "swap_" ++ toString env.nowMs
  let expirationTime := env.nowMs + params.timelockHours * 3600000
  let result0 : CrossChainSwapResult :=
    { swapId := swapId, secretHash := secretHash, status := "created",
      expirationTime := expirationTime }
  let (result, calls) ←
    if params.sourceChain == "ethereum" && params.destChain == "tezos" then
      createEthereumToTezosSwap env params secretHash result0
    else if params.sourceChain == "tezos" && params.destChain == "ethereum" then
      createTezosToEthereumSwap env params secretHash result0
    else throw "Invalid cross-chain direction"
  pure (result, calls, storeSwapDetails result secret)

/-- One row of the cross_chain_swaps table as getSwapStatus reads it. -/
structure SwapRow where
  id : String
  secret_hash : String
  ethereum_swap_id : Option Nat := none
  tezos_swap_id : Option Nat := none
  fusion_order_hash : Option String := none
  status : String
  expiration_time : Nat
deriving DecidableEq, Repr

/-- Statuses listActiveSwaps selects: the concurrently active swaps. -/
def activeStatuses : List String :=
  ["created", "ethereum_locked", "tezos_locked", "both_locked"]

def listActiveSwaps (db : List SwapRow) : List SwapRow :=
  db.filter (fun r => activeStatuses.contains r.status)

def getSwapStatus (db : List SwapRow) (swapId : String) : Option SwapRow :=
  db.find? (fun r => r.id == swapId)

/-- claimSwap: look the swap up, recompute the hash of the candidate
secret and compare; on match, set status completed.  The row status and
the expiration time are never consulted. -/
def claimSwap (sha256 : String → String) (db : List SwapRow)
    (swapId secret : String) : Except String (List SwapRow × Bool) :=
  match getSwapStatus db swapId with
  | none => Except.error "Swap not found"
  | some swapDetails =>
    let computedHash := CryptoUtils.createHash sha256 secret
    if computedHash ≠ swapDetails.secret_hash then Except.error "Invalid secret"
    else Except.ok
      (db.map (fun r => if r.id == swapId then { r with status := "completed" } else r),
       true)

end CrossChainSwapService

/-! ## CrossChainResolverService (first service of
src/backend/src/services/crossChainResolverService.ts)

The monitoring cycle over the cross_chain_swaps table: secret reveal
when both sides are deposited, and timeout-driven refunds.  Ledger and
database calls are an environment of Except-returning functions; the
second component of each step counts the adapter write calls (Tezos
claim / refund operations) it issued. -/

namespace CrossChainResolverService

/-- One cross_chain_swaps row joined with its fusion_orders columns,
as the monitoring queries read it.  Times are seconds since epoch. -/
structure CcsRow where
  id : String
  fusion_order_hash : String
  secret_hash : String
  status : String
  secret : Option String := none
  tezos_htlc_address : Option String := none
  tezos_htlc_id : Option Nat := none
  tezos_timelock_hours : Nat := 0
  fusion_auction_start_time : Nat := 0
deriving DecidableEq, Repr

structure MonitorEnv where
  fusionStatus : String → Except String (Option String)
  tezosActive : String → Nat → Except String Bool
  orderSecret : String → Except String (Option String)
  tezosClaim : String → Nat → String → Except String Unit
  tezosRefund : String → Nat → Except String Unit

/-- checkTezosHTLCStatus: query the HTLC; any error is caught and
reported as not deposited. -/
def checkTezosHTLCStatus (env : MonitorEnv) (contractAddress : String)
    (htlcId : Nat) : Bool :=
  match env.tezosActive contractAddress htlcId with
  | Except.ok b => b
  | Except.error _ => false

/-- revealSecretAndClaim: fetch the stored order secret, claim the
Tezos HTLC with it (this is the reveal), then mark the row revealed
with the secret; any failure is caught and marks the row failed.  The
secret is never checked against the row secret_hash. -/
def revealSecretAndClaim (env : MonitorEnv) (row : CcsRow) : CcsRow × Nat :=
  match env.orderSecret row.fusion_order_hash with
  | Except.error _ => ({ row with status := "failed" }, 0)
  | Except.ok none => ({ row with status := "failed" }, 0)
  | Except.ok (some secret) =>
    match row.tezos_htlc_address, row.tezos_htlc_id with
    | some addr, some htlcId =>
      match env.tezosClaim addr htlcId secret with
      | Except.ok _ => ({ row with secret := some secret, status := "revealed" }, 1)
      | Except.error _ => ({ row with status := "failed" }, 1)
    | _, _ => ({ row with status := "failed" }, 0)

/-- checkAndRevealSecret: reveal only when the Fusion+ order reports
filled and the Tezos HTLC is active; a status-query error is caught
and leaves the row untouched. -/
def checkAndRevealSecret (env : MonitorEnv) (row : CcsRow) : CcsRow × Nat :=
  match env.fusionStatus row.fusion_order_hash with
  | Except.error _ => (row, 0)
  | Except.ok st =>
    let fusionSettled := st == some "filled"
    let tezosDeposited :=
      match row.tezos_htlc_address, row.tezos_htlc_id with
      | some addr, some htlcId => checkTezosHTLCStatus env addr htlcId
      | _, _ => false
    if fusionSettled && tezosDeposited then revealSecretAndClaim env row
    else (row, 0)

/-- monitorStep: the per-row action of monitorAndRevealSecrets; the SQL
selects only rows in status deposited, every other row is untouched. -/
def monitorStep (env : MonitorEnv) (row : CcsRow) : CcsRow × Nat :=
  if row.status == "deposited" then checkAndRevealSecret env row else (row, 0)

/-- monitorTick: one monitoring cycle over the whole table, returning
the new table and the total number of adapter write calls issued. -/
def monitorTick (env : MonitorEnv) (rows : List CcsRow) : List CcsRow × Nat :=
  (rows.map (fun r => (monitorStep env r).1),
   (rows.map (fun r => (monitorStep env r).2)).sum)

/-- monitorAndRevealSecrets: the cycle entry point; a database read
error is caught by the outer handler and the call returns normally. -/
def monitorAndRevealSecrets (env : MonitorEnv)
    (dbRead : Except String (List CcsRow)) :
    Except String (List CcsRow × Nat) :=
  match dbRead with
  | Except.error _ => Except.ok ([], 0)
  | Except.ok rows => Except.ok (monitorTick env rows)

/-- Timeout selection condition of the handleTimeouts SQL: auction
start plus the timelock interval lies strictly before now. -/
def timedOut (now : Nat) (row : CcsRow) : Bool :=
  row.fusion_auction_start_time + row.tezos_timelock_hours * 3600 < now

/-- refundExpiredSwap: refund the Tezos HTLC when the row has one (the
JS truthiness test skips an empty address or id 0), then mark the row
refunded; a refund error is caught and leaves the status unchanged. -/
def refundExpiredSwap (env : MonitorEnv) (row : CcsRow) : CcsRow × Nat :=
  match row.tezos_htlc_address, row.tezos_htlc_id with
  | some addr, some htlcId =>
    if addr ≠ "" ∧ htlcId ≠ 0 then
      match env.tezosRefund addr htlcId with
      | Except.ok _ => ({ row with status := "refunded" }, 1)
      | Except.error _ => (row, 1)
    else ({ row with status := "refunded" }, 0)
  | _, _ => ({ row with status := "refunded" }, 0)

/-- timeoutStep: the per-row action of handleTimeouts; the SQL selects
rows in status deposited or revealed whose timelock has passed. -/
def timeoutStep (env : MonitorEnv) (now : Nat) (row : CcsRow) : CcsRow × Nat :=
  if (row.status == "deposited" || row.status == "revealed") && timedOut now row
  then refundExpiredSwap env row
  else (row, 0)

/-- handleTimeouts: the timeout entry point; a database read error is
caught by the outer handler and the call returns normally. -/
def handleTimeouts (env : MonitorEnv) (now : Nat)
    (dbRead : Except String (List CcsRow)) :
    Except String (List CcsRow × Nat) :=
  match dbRead with
  | Except.error _ => Except.ok ([], 0)
  | Except.ok rows =>
    Except.ok (rows.map (fun r => (timeoutStep env now r).1),
               (rows.map (fun r => (timeoutStep env now r).2)).sum)

/-- checkForResolutionOpportunities: auto-resolve pending orders (each
failure caught and logged) then run the reveal cycle; an error reading
the opportunity list is caught by the outer handler. -/
def checkForResolutionOpportunities (env : MonitorEnv)
    (opportunities : Except String (List String))
    (resolveOrder : String → Except String Unit)
    (dbRead : Except String (List CcsRow)) :
    Except String (List CcsRow × Nat) :=
  match opportunities with
  | Except.error _ => Except.ok ([], 0)
  | Except.ok orders =>
    let _ := orders.map (fun h =>
      match resolveOrder h with
      | Except.ok _ => true
      | Except.error _ => false)
    monitorAndRevealSecrets env dbRead

/-- monitoringCallback: the setInterval body wrapping the cycle in its
own try/catch. -/
def monitoringCallback (env : MonitorEnv)
    (opportunities : Except String (List String))
    (resolveOrder : String → Except String Unit)
    (dbRead : Except String (List CcsRow)) : Except String Unit :=
  match checkForResolutionOpportunities env opportunities resolveOrder dbRead with
  | Except.ok _ => Except.ok ()
  | Except.error _ => Except.ok ()

end CrossChainResolverService

/-! ## RelayerService (src/unnamed/part_006)

The older relayer: when both deposits are confirmed it calls
revealSecret, which generates a brand-new random secret, stores it on
the swap row, and triggers the claim operations with it; processRefunds
refunds deposited swaps of expired orders. -/

namespace RelayerService

structure RelayerSwap where
  id : String
  order_id : String
  status : String
  secret : Option String := none
  ethereum_tx_hash : Option String := none
  tezos_tx_hash : Option String := none
deriving DecidableEq, Repr

/-- One claim or refund call issued to a chain contract. -/
structure ChainCall where
  chain : String
  op : String
  contractSwapId : Nat
  secret : Option String
deriving DecidableEq, Repr

structure RelayerEnv where
  randomBytes : List Nat
  claimEthereum : Nat → String → Except String String
  claimTezos : Nat → String → Except String String
  refundEthereum : Nat → Except String String
  refundTezos : Nat → Except String String

/-- triggerClaimOperations: claim on both chains with the given secret
(each claim failure caught, yielding no transaction row), then mark the
swap claimed.  getEthereumSwapId and getTezosSwapId both return 1 in
the source. -/
def triggerClaimOperations (env : RelayerEnv) (db : List RelayerSwap)
    (swapId : String) (secret : String) :
    List RelayerSwap × List ChainCall :=
  match db.find? (fun r => r.id == swapId) with
  | none => (db, [])
  | some _ =>
    let calls := [{ chain := "ethereum", op := "claim", contractSwapId := 1,
                    secret := some secret : ChainCall },
                  { chain := "tezos", op := "claim", contractSwapId := 1,
                    secret := some secret : ChainCall }]
    (db.map (fun r => if r.id == swapId then { r with status := "claimed" } else r),
     calls)

/-- revealSecret: generate a fresh random secret, store it on the swap
row, and trigger the claims with it.  The secretHash argument is only
logged; no verification against it happens. -/
def revealSecret (env : RelayerEnv) (db : List RelayerSwap)
    (swapId : String) (secretHash : String) :
    List RelayerSwap × List ChainCall :=
  let secret := CryptoUtils.generateSecret env.randomBytes
  let db := db.map (fun r =>
    if r.id == swapId then { r with secret := some secret } else r)
  triggerClaimOperations env db swapId secret

/-- processRefund: refund on both chains (failures caught, yielding no
transaction row) and mark the swap refunded. -/
def processRefund (env : RelayerEnv) (db : List RelayerSwap)
    (swap : RelayerSwap) : List RelayerSwap × List ChainCall :=
  let calls := [{ chain := "ethereum", op := "refund", contractSwapId := 1,
                  secret := none : ChainCall },
                { chain := "tezos", op := "refund", contractSwapId := 1,
                  secret := none : ChainCall }]
  (db.map (fun r => if r.id == swap.id then { r with status := "refunded" } else r),
   calls)

structure ROrder where
  id : String
  secret_hash : String
deriving DecidableEq, Repr

/-- Loop body of processRefunds: a swap lookup error propagates out of
the loop (to the outer catch); a deposited swap of an expired order is
refunded, processRefund itself never throws. -/
def processRefundsCore (env : RelayerEnv)
    (swapLookup : String → Except String (Option RelayerSwap)) :
    List ROrder → Except String Unit
  | [] => Except.ok ()
  | o :: rest =>
    match swapLookup o.id with
    | Except.error e => Except.error e
    | Except.ok (some swap) =>
      let _ := if swap.status == "deposited"
               then some (processRefund env [] swap) else none
      processRefundsCore env swapLookup rest
    | Except.ok none => processRefundsCore env swapLookup rest

/-- processRefunds: the entry point; the outer handler catches any
error from the expired-order query or the loop. -/
def processRefunds (env : RelayerEnv)
    (expiredOrders : Except String (List ROrder))
    (swapLookup : String → Except String (Option RelayerSwap)) :
    Except String Unit :=
  match (do
      let orders ← expiredOrders
      processRefundsCore env swapLookup orders : Except String Unit) with
  | Except.ok _ => Except.ok ()
  | Except.error _ => Except.ok ()

/-- monitorAndRevealSecrets of the relayer: iterate the active swaps;
the outer handler catches any error from the query or the loop. -/
def monitorAndRevealSecrets (env : RelayerEnv)
    (activeSwaps : Except String (List RelayerSwap))
    (processSwap : RelayerSwap → Except String Unit) : Except String Unit :=
  match (do
      let swaps ← activeSwaps
      swaps.forM processSwap : Except String Unit) with
  | Except.ok _ => Except.ok ()
  | Except.error _ => Except.ok ()

end RelayerService

/-! ## Helper lemmas -/

theorem lookupSwap_storeSwap (swaps : List (Nat × HTLCEscrow.Swap))
    (i : Nat) (s : HTLCEscrow.Swap) :
    HTLCEscrow.lookupSwap (HTLCEscrow.storeSwap swaps i s) i = some s := by
  induction swaps with
  | nil => simp [HTLCEscrow.storeSwap, HTLCEscrow.lookupSwap, List.find?]
  | cons p rest ih =>
    by_cases h : p.1 = i
    · simp [HTLCEscrow.storeSwap, h, HTLCEscrow.lookupSwap, List.find?]
    · have hb : (p.1 == i) = false := beq_eq_false_iff_ne.mpr h
      simp only [HTLCEscrow.storeSwap, hb, Bool.false_eq_true, if_false]
      simpa [HTLCEscrow.lookupSwap, List.find?, hb] using ih

/-! ## Claim theorems -/

/-- C9: generateSecret on 32 random bytes yields a fixed-length
(64-character hex) secret, and verifySecret s h holds exactly when
createHash s equals h; in particular every secret verifies against its
own createHash. -/
theorem secret_commitment_roundtrip :
    (∀ randomBytes : List Nat, randomBytes.length = 32 →
      (CryptoUtils.generateSecret randomBytes).length = 64)
    ∧ (∀ (sha256 : String → String) (s h : String),
        CryptoUtils.verifySecret sha256 s h = true ↔
          CryptoUtils.createHash sha256 s = h)
    ∧ (∀ (sha256 : String → String) (s : String),
        CryptoUtils.verifySecret sha256 s (CryptoUtils.createHash sha256 s) = true) := by
  refine ⟨fun rb hrb => ?_, fun sha s h => ?_, fun sha s => ?_⟩
  · rw [generateSecret_length, hrb]
  · simp [CryptoUtils.verifySecret]
  · simp [CryptoUtils.verifySecret]

/-- Witness for C9 at the all-zero 32-byte random string and a concrete
digest function. -/
theorem secret_commitment_roundtrip_witness :
    (CryptoUtils.generateSecret (List.replicate 32 0)).length = 64 ∧
    (CryptoUtils.verifySecret (fun s => s ++ "!") "ab" "ab!" = true ↔
      CryptoUtils.createHash (fun s => s ++ "!") "ab" = "ab!") :=
  ⟨secret_commitment_roundtrip.1 (List.replicate 32 0) (by decide),
   secret_commitment_roundtrip.2.1 (fun s => s ++ "!") "ab" "ab!"⟩

/-- C10 (amended): for an ETH escrow the recorded amount is msg.value
minus the integer fee (msg.value times feePercentage, divided by 10000,
rounding down) and collectedFees grows by exactly that fee; the claimer
therefore receives strictly less than the deposit exactly when
msg.value times feePercentage reaches 10000 — for smaller deposits the
fee rounds to zero and the full deposit is paid out. -/
theorem eth_escrow_fee_accounting
    (env : HTLCEscrow.TokenEnv) (st : HTLCEscrow.State)
    (sender msgValue taker secretHash timelockHours tokenAmount blockTimestamp : Nat)
    (hpause : st.paused = false)
    (h1 : 1 ≤ timelockHours) (h2 : timelockHours ≤ 168)
    (hh : secretHash ≠ 0)
    (hfresh : st.usedSecretHashes.contains secretHash = false)
    (hval : msgValue ≠ 0)
    (hfee : st.feePercentage ≤ 500) :
    ∃ st', HTLCEscrow.createSwap env st sender msgValue taker secretHash
        timelockHours 0 tokenAmount blockTimestamp = Except.ok (st', []) ∧
      ∃ swap, HTLCEscrow.lookupSwap st'.swaps st.nextSwapId = some swap ∧
        swap.amount = msgValue - msgValue * st.feePercentage / 10000 ∧
        st'.collectedFees =
          st.collectedFees + msgValue * st.feePercentage / 10000 ∧
        (swap.amount < msgValue ↔ 10000 ≤ msgValue * st.feePercentage) := by
  have hlt1 : ¬ timelockHours < 1 := by omega
  have hlt2 : ¬ 168 < timelockHours := by omega
  have hcreate : HTLCEscrow.createSwap env st sender msgValue taker secretHash
      timelockHours 0 tokenAmount blockTimestamp =
      Except.ok ({ st with
          nextSwapId := st.nextSwapId + 1,
          swaps := HTLCEscrow.storeSwap st.swaps st.nextSwapId
            { swapId := st.nextSwapId, maker := sender, taker := taker,
              amount := msgValue - msgValue * st.feePercentage / 10000,
              tokenAddress := 0, secretHash := secretHash,
              timelock := blockTimestamp + timelockHours * 3600,
              status := HTLCEscrow.SwapStatus.ACTIVE,
              createdAt := blockTimestamp },
          collectedFees := st.collectedFees + msgValue * st.feePercentage / 10000,
          usedSecretHashes := st.usedSecretHashes ++ [secretHash] }, []) := by
    have hmem : secretHash ∉ st.usedSecretHashes := by simpa using hfresh
    simp [HTLCEscrow.createSwap, hpause, hlt1, hlt2, hh, hmem, hval]
    rfl
  refine ⟨_, hcreate, _, lookupSwap_storeSwap _ _ _, rfl, rfl, ?_⟩
  have hdiv : msgValue * st.feePercentage / 10000 = 0 ↔
      msgValue * st.feePercentage < 10000 :=
    Nat.div_eq_zero_iff (by norm_num)
  have h5 : msgValue * st.feePercentage ≤ msgValue * 10000 :=
    Nat.mul_le_mul_left _ (by omega)
  have hle : msgValue * st.feePercentage / 10000 ≤ msgValue := by
    have hd := Nat.div_le_div_right (c := 10000) h5
    have hc : msgValue * 10000 / 10000 = msgValue :=
      Nat.mul_div_cancel _ (by norm_num)
    omega
  dsimp only
  omega

/-- Witness for C10 (amended) at a concrete 20000-wei deposit in the
default contract state. -/
theorem eth_escrow_fee_accounting_witness :
    ∃ st', HTLCEscrow.createSwap ⟨fun _ _ => 0, fun _ _ => 0⟩ {} 7 20000 0 42
        24 0 0 0 = Except.ok (st', []) ∧
      ∃ swap, HTLCEscrow.lookupSwap st'.swaps 1 = some swap ∧
        swap.amount = 20000 - 20000 * 10 / 10000 ∧
        st'.collectedFees = 0 + 20000 * 10 / 10000 ∧
        (swap.amount < 20000 ↔ 10000 ≤ 20000 * 10) :=
  eth_escrow_fee_accounting ⟨fun _ _ => 0, fun _ _ => 0⟩ {} 7 20000 0 42 24 0 0
    rfl (by decide) (by decide) (by decide) (by decide) (by decide) (by decide)

/-- Concrete escrow produced by a 999-wei ETH createSwap in the default
contract state: the 0.1 percent fee of 999 rounds down to zero. -/
def swap999 : HTLCEscrow.Swap :=
  { swapId := 1, maker := 7, taker := 0, amount := 999, tokenAddress := 0,
    secretHash := 42, timelock := 86400,
    status := HTLCEscrow.SwapStatus.ACTIVE, createdAt := 0 }

def st999 : HTLCEscrow.State :=
  { nextSwapId := 2, swaps := [(1, swap999)], usedSecretHashes := [42],
    feePercentage := 10, collectedFees := 0, paused := false }

/-- C10 counterexample: a 999-wei deposit under the default nonzero
feePercentage of 10 basis points records the full 999 as the escrow
amount, leaves collectedFees at zero, and pays the claimer exactly the
999 the maker deposited — not strictly less. -/
theorem eth_escrow_fee_rounds_to_zero_cex :
    HTLCEscrow.createSwap ⟨fun _ _ => 0, fun _ _ => 0⟩ {} 7 999 0 42 24 0 0 0 =
      Except.ok (st999, [])
    ∧ st999.feePercentage ≠ 0
    ∧ HTLCEscrow.claimSwap (fun n => n + 1) st999 9 1 41 100 =
        Except.ok
          ({ st999 with
              swaps := [(1, { swap999 with
                                status := HTLCEscrow.SwapStatus.CLAIMED })] },
           [HTLCEscrow.Transfer.eth 9 999])
    ∧ ¬ (999 < 999) := by
  refine ⟨by rfl, by decide, by rfl, by decide⟩

/-- Environment and parameters for a concrete ethereum-to-tezos swap
creation whose generated secret hashes to H, the hash of an already
active swap. -/
def collideEnv : CrossChainSwapService.CreationEnv :=
  { sha256 := fun _ => "H", randomBytes := [0], nowMs := 0,
    fusionOrderHash := Except.ok "fo", tezosHtlcId := Except.ok 5,
    ethereumHtlcId := Except.ok 6 }

def collideParams : CrossChainSwapService.CrossChainSwapParams :=
  { makerAddress := "0xM", tezosRecipient := "tz1R",
    sourceChain := "ethereum", destChain := "tezos",
    sourceToken := "ETH", destToken := "XTZ",
    sourceAmount := "1", destAmount := "1", timelockHours := 24 }

def collideActiveDb : List CrossChainSwapService.SwapRow :=
  [{ id := "old", secret_hash := "H", status := "both_locked",
     expiration_time := 99 }]

/-- C5 counterexample: with an active swap of hash H in the store, a
new swap whose committed hash is also H is accepted: createCrossChainSwap
consults no existing swaps, succeeds, and issues both escrow creation
calls instead of failing with HashCollision before creating any escrow. -/
theorem startSwap_accepts_colliding_hash_cex :
    (CrossChainSwapService.listActiveSwaps collideActiveDb).map
        (fun r => r.secret_hash) = ["H"]
    ∧ (CrossChainSwapService.createCrossChainSwap collideEnv collideParams).isOk
        = true
    ∧ (CrossChainSwapService.createCrossChainSwap collideEnv collideParams).toOption.map
        (fun x => x.1.secretHash) = some "H"
    ∧ (CrossChainSwapService.createCrossChainSwap collideEnv collideParams).toOption.map
        (fun x => x.2.1.length) = some 2 := by
  refine ⟨by decide, by decide, by decide, by decide⟩

/-- C5 (amended): the off-chain coordinator runs no hash-uniqueness
check at swap creation — an ethereum-to-tezos createCrossChainSwap
succeeds whenever the counter HTLC creation succeeds, whatever hashes
the active swaps hold — while uniqueness is enforced at the ledger
level only: HTLCEscrow.createSwap rejects a secret hash used by any
earlier swap (active or settled) with SECRET_HASH_ALREADY_USED and no
state change, and accepts a fresh valid hash. -/
theorem hash_uniqueness_on_chain_only :
    (∀ (env : HTLCEscrow.TokenEnv) (st : HTLCEscrow.State)
        (sender msgValue taker secretHash timelockHours tokenAmount ts : Nat),
      st.paused = false → 1 ≤ timelockHours → timelockHours ≤ 168 →
      secretHash ≠ 0 → st.usedSecretHashes.contains secretHash = true →
      HTLCEscrow.createSwap env st sender msgValue taker secretHash
          timelockHours 0 tokenAmount ts =
        Except.error "SECRET_HASH_ALREADY_USED")
    ∧ (∀ (env : HTLCEscrow.TokenEnv) (st : HTLCEscrow.State)
        (sender msgValue taker secretHash timelockHours tokenAmount ts : Nat),
      st.paused = false → 1 ≤ timelockHours → timelockHours ≤ 168 →
      secretHash ≠ 0 → st.usedSecretHashes.contains secretHash = false →
      msgValue ≠ 0 →
      (HTLCEscrow.createSwap env st sender msgValue taker secretHash
          timelockHours 0 tokenAmount ts).isOk = true)
    ∧ (∀ (cenv : CrossChainSwapService.CreationEnv)
        (params : CrossChainSwapService.CrossChainSwapParams),
      params.sourceChain = "ethereum" → params.destChain = "tezos" →
      cenv.tezosHtlcId.isOk = true →
      (CrossChainSwapService.createCrossChainSwap cenv params).isOk = true) := by
  refine ⟨?_, ?_, ?_⟩
  · intro env st sender msgValue taker secretHash timelockHours tokenAmount ts
      hpause h1 h2 hh hused
    have hmem : secretHash ∈ st.usedSecretHashes := by simpa using hused
    have hlt1 : ¬ timelockHours < 1 := by omega
    have hlt2 : ¬ 168 < timelockHours := by omega
    simp [HTLCEscrow.createSwap, hpause, hlt1, hlt2, hh, hmem]
    rfl
  · intro env st sender msgValue taker secretHash timelockHours tokenAmount ts
      hpause h1 h2 hh hfresh hval
    have hmem : secretHash ∉ st.usedSecretHashes := by simpa using hfresh
    have hlt1 : ¬ timelockHours < 1 := by omega
    have hlt2 : ¬ 168 < timelockHours := by omega
    simp [HTLCEscrow.createSwap, hpause, hlt1, hlt2, hh, hmem, hval]
    rfl
  · intro cenv params hsrc hdst hok
    cases htz : cenv.tezosHtlcId with
    | error e => rw [htz] at hok; cases hok
    | ok htlcId =>
      cases hf : cenv.fusionOrderHash with
      | error e =>
        simp [CrossChainSwapService.createCrossChainSwap, hsrc, hdst,
          CrossChainSwapService.createEthereumToTezosSwap, htz, hf]
        rfl
      | ok h =>
        simp [CrossChainSwapService.createCrossChainSwap, hsrc, hdst,
          CrossChainSwapService.createEthereumToTezosSwap, htz, hf]
        rfl

/-- Witness for C5 (amended) at concrete contract states and a concrete
coordinator environment. -/
theorem hash_uniqueness_on_chain_only_witness :
    HTLCEscrow.createSwap ⟨fun _ _ => 0, fun _ _ => 0⟩ st999 8 500 0 42 24 0 0 0 =
      Except.error "SECRET_HASH_ALREADY_USED"
    ∧ (HTLCEscrow.createSwap ⟨fun _ _ => 0, fun _ _ => 0⟩ st999 8 500 0 43 24 0 0 0).isOk
        = true
    ∧ (CrossChainSwapService.createCrossChainSwap collideEnv collideParams).isOk
        = true :=
  ⟨hash_uniqueness_on_chain_only.1 ⟨fun _ _ => 0, fun _ _ => 0⟩ st999 8 500 0 42
      24 0 0 rfl (by decide) (by decide) (by decide) (by decide),
   hash_uniqueness_on_chain_only.2.1 ⟨fun _ _ => 0, fun _ _ => 0⟩ st999 8 500 0
      43 24 0 0 rfl (by decide) (by decide) (by decide) (by decide) (by decide),
   hash_uniqueness_on_chain_only.2.2 collideEnv collideParams rfl rfl rfl⟩

theorem createEthereumToTezosSwap_ok_secretHash
    (env : CrossChainSwapService.CreationEnv)
    (params : CrossChainSwapService.CrossChainSwapParams)
    (secretHash : String) (result : CrossChainSwapService.CrossChainSwapResult)
    (out : CrossChainSwapService.CrossChainSwapResult ×
        List CrossChainSwapService.HtlcCreate)
    (h : CrossChainSwapService.createEthereumToTezosSwap env params secretHash
        result = Except.ok out) :
    out.1.secretHash = result.secretHash ∧ out.1.swapId = result.swapId ∧
      out.1.ethereumSwapId = result.ethereumSwapId ∧
      out.1.expirationTime = result.expirationTime := by
  unfold CrossChainSwapService.createEthereumToTezosSwap at h
  cases hf : env.fusionOrderHash with
  | error e =>
    rw [hf] at h
    cases htz : env.tezosHtlcId with
    | error e2 => rw [htz] at h; cases h
    | ok i => rw [htz] at h; cases h; exact ⟨rfl, rfl, rfl, rfl⟩
  | ok fh =>
    rw [hf] at h
    cases htz : env.tezosHtlcId with
    | error e2 => rw [htz] at h; cases h
    | ok i => rw [htz] at h; cases h; exact ⟨rfl, rfl, rfl, rfl⟩

theorem createTezosToEthereumSwap_ok_secretHash
    (env : CrossChainSwapService.CreationEnv)
    (params : CrossChainSwapService.CrossChainSwapParams)
    (secretHash : String) (result : CrossChainSwapService.CrossChainSwapResult)
    (out : CrossChainSwapService.CrossChainSwapResult ×
        List CrossChainSwapService.HtlcCreate)
    (h : CrossChainSwapService.createTezosToEthereumSwap env params secretHash
        result = Except.ok out) :
    out.1.secretHash = result.secretHash ∧ out.1.swapId = result.swapId ∧
      out.1.expirationTime = result.expirationTime := by
  unfold CrossChainSwapService.createTezosToEthereumSwap at h
  cases htz : env.tezosHtlcId with
  | error e => rw [htz] at h; cases h
  | ok i =>
    rw [htz] at h
    cases he : env.ethereumHtlcId with
    | error e2 => rw [he] at h; cases h
    | ok j => rw [he] at h; cases h; exact ⟨rfl, rfl, rfl⟩

/-- C6 (amended): the swap-creation pipeline persists the hash in the
cross_chain_swaps row but in the same operation persists the raw
generated secret into the dedicated swap_secrets table — at creation,
before any reveal; order creation likewise persists the raw secret into
order_secrets.  The swap row itself carries only the hash. -/
theorem creation_persists_secret_in_secrets_table
    (env : CrossChainSwapService.CreationEnv)
    (params : CrossChainSwapService.CrossChainSwapParams)
    (result : CrossChainSwapService.CrossChainSwapResult)
    (calls : List CrossChainSwapService.HtlcCreate) (writes : List DbWrite)
    (h : CrossChainSwapService.createCrossChainSwap env params =
        Except.ok (result, calls, writes)) :
    writes =
      [DbWrite.insertCrossChainSwap result.swapId result.secretHash
          result.ethereumSwapId result.tezosSwapId result.fusionOrderHash
          result.status result.expirationTime,
       DbWrite.upsertSwapSecret result.swapId
          (CryptoUtils.generateSecret env.randomBytes)]
    ∧ result.secretHash =
        CryptoUtils.createHash env.sha256
          (CryptoUtils.generateSecret env.randomBytes)
    ∧ (∀ orderHash secret, FusionOrderService.storeOrderSecret orderHash secret
          = [DbWrite.insertOrderSecret orderHash secret]) := by
  unfold CrossChainSwapService.createCrossChainSwap at h
  by_cases h1 : (params.sourceChain == "ethereum" &&
      params.destChain == "tezos") = true
  · rw [if_pos h1] at h
    cases hb : CrossChainSwapService.createEthereumToTezosSwap env params
        (CryptoUtils.createHash env.sha256
          (CryptoUtils.generateSecret env.randomBytes))
        { swapId := "swap_" ++ toString env.nowMs,
          secretHash := CryptoUtils.createHash env.sha256
            (CryptoUtils.generateSecret env.randomBytes),
          status := "created",
          expirationTime := env.nowMs + params.timelockHours * 3600000 } with
    | error e => rw [hb] at h; cases h
    | ok out =>
      rw [hb] at h
      obtain ⟨hsh, -, -, -⟩ := createEthereumToTezosSwap_ok_secretHash _ _ _ _ _ hb
      cases h
      exact ⟨rfl, hsh, fun _ _ => rfl⟩
  · rw [if_neg h1] at h
    by_cases h2 : (params.sourceChain == "tezos" &&
        params.destChain == "ethereum") = true
    · rw [if_pos h2] at h
      cases hb : CrossChainSwapService.createTezosToEthereumSwap env params
          (CryptoUtils.createHash env.sha256
            (CryptoUtils.generateSecret env.randomBytes))
          { swapId := "swap_" ++ toString env.nowMs,
            secretHash := CryptoUtils.createHash env.sha256
              (CryptoUtils.generateSecret env.randomBytes),
            status := "created",
            expirationTime := env.nowMs + params.timelockHours * 3600000 } with
      | error e => rw [hb] at h; cases h
      | ok out =>
        rw [hb] at h
        obtain ⟨hsh, -, -⟩ := createTezosToEthereumSwap_ok_secretHash _ _ _ _ _ hb
        cases h
        exact ⟨rfl, hsh, fun _ _ => rfl⟩
    · rw [if_neg h2] at h
      cases h

/-- Witness for C6 (amended) at the concrete colliding-creation input. -/
theorem creation_persists_secret_in_secrets_table_witness :
    [DbWrite.insertCrossChainSwap "swap_0" "H" none (some 5) (some "fo")
        "both_locked" 86400000,
     DbWrite.upsertSwapSecret "swap_0" "00"] =
      [DbWrite.insertCrossChainSwap "swap_0" "H" none (some 5) (some "fo")
          "both_locked" 86400000,
       DbWrite.upsertSwapSecret "swap_0"
          (CryptoUtils.generateSecret collideEnv.randomBytes)]
    ∧ ("H" : String) = CryptoUtils.createHash collideEnv.sha256
        (CryptoUtils.generateSecret collideEnv.randomBytes)
    ∧ (∀ orderHash secret, FusionOrderService.storeOrderSecret orderHash secret
          = [DbWrite.insertOrderSecret orderHash secret]) := by
  have h := creation_persists_secret_in_secrets_table collideEnv collideParams
    { swapId := "swap_0", secretHash := "H", ethereumSwapId := none,
      fusionOrderHash := some "fo", tezosSwapId := some 5,
      status := "both_locked", expirationTime := 86400000 }
    [{ chain := "ethereum-fusion", recipient := "0xM", amount := "1",
       secretHash := "H", timelockHours := 24 },
     { chain := "tezos", recipient := "tz1R", amount := "1",
       secretHash := "H", timelockHours := 24 }]
    [DbWrite.insertCrossChainSwap "swap_0" "H" none (some 5) (some "fo")
        "both_locked" 86400000,
     DbWrite.upsertSwapSecret "swap_0" "00"]
    (by rfl)
  exact h

/-- C6 counterexample: at a concrete creation (resulting status
both_locked, before any reveal) the database writes include the raw
secret 00 itself, in the swap_secrets upsert — creation does not
persist only the hash H. -/
theorem secret_persisted_at_creation_cex :
    (CrossChainSwapService.createCrossChainSwap collideEnv
        collideParams).toOption.map (fun x => x.2.2) =
      some [DbWrite.insertCrossChainSwap "swap_0" "H" none (some 5) (some "fo")
              "both_locked" 86400000,
            DbWrite.upsertSwapSecret "swap_0" "00"]
    ∧ (CrossChainSwapService.createCrossChainSwap collideEnv
        collideParams).toOption.map (fun x => x.1.status) = some "both_locked"
    ∧ ("00" : String) ≠ "H"
    ∧ FusionOrderService.storeOrderSecret "oh" "00" =
        [DbWrite.insertOrderSecret "oh" "00"] := by
  refine ⟨by rfl, by rfl, by decide, by rfl⟩

/-- Environment and parameters for a concrete ethereum-to-tezos
creation used to exhibit the missing timelock-ordering check. -/
def orderingEnv : CrossChainSwapService.CreationEnv :=
  { sha256 := fun s => s ++ "h", randomBytes := [1], nowMs := 1000,
    fusionOrderHash := Except.ok "forder", tezosHtlcId := Except.ok 9,
    ethereumHtlcId := Except.ok 10 }

def orderingParams : CrossChainSwapService.CrossChainSwapParams :=
  { makerAddress := "0xA", tezosRecipient := "tz1B",
    sourceChain := "ethereum", destChain := "tezos",
    sourceToken := "ETH", destToken := "XTZ",
    sourceAmount := "5", destAmount := "5", timelockHours := 24 }

/-- C1: no timelock-ordering validation exists anywhere in the creation
pipeline: both the first (Ethereum/Fusion) leg and the Tezos counter
leg are created from the single timelockHours parameter, so the counter
leg's timelock is equal to — not strictly earlier than — the first
leg's; both ledger creation calls are issued and the swap is accepted
as both_locked, never rejected. -/
theorem counter_leg_created_without_ordering_check :
    (CrossChainSwapService.createCrossChainSwap orderingEnv
        orderingParams).toOption.map
        (fun x => x.2.1.map (fun c => (c.chain, c.timelockHours))) =
      some [("ethereum-fusion", 24), ("tezos", 24)]
    ∧ (CrossChainSwapService.createCrossChainSwap orderingEnv
        orderingParams).toOption.map (fun x => x.1.status) =
        some "both_locked"
    ∧ (CrossChainSwapService.createCrossChainSwap orderingEnv
        orderingParams).isOk = true
    ∧ orderingParams.timelockHours = 24 ∧ ¬ (24 < 24) := by
  refine ⟨by rfl, by rfl, by rfl, by rfl, by decide⟩

/-- C3 (amended): on-chain, a claim succeeds only when the swap exists,
is ACTIVE, unexpired, and the secret hashes to the stored hash (a
failed require reverts with no state change); the backend claimSwap by
contrast checks only existence and the hash — its success is
independent of the row's status and expiration, so it marks even an
expired or already-terminal swap completed. -/
theorem claim_guard_conditions :
    (∀ (keccak256 : Nat → Nat) (st : HTLCEscrow.State)
        (sender swapId secret ts : Nat)
        (out : HTLCEscrow.State × List HTLCEscrow.Transfer),
      HTLCEscrow.claimSwap keccak256 st sender swapId secret ts =
          Except.ok out →
      ∃ swap, HTLCEscrow.lookupSwap st.swaps swapId = some swap ∧
        swap.status = HTLCEscrow.SwapStatus.ACTIVE ∧ ts < swap.timelock ∧
        keccak256 secret = swap.secretHash)
    ∧ (∀ (sha256 : String → String) (db : List CrossChainSwapService.SwapRow)
        (swapId secret : String),
      (CrossChainSwapService.claimSwap sha256 db swapId secret).isOk = true ↔
        ∃ row, CrossChainSwapService.getSwapStatus db swapId = some row ∧
          CryptoUtils.createHash sha256 secret = row.secret_hash) := by
  constructor
  · intro keccak256 st sender swapId secret ts out h
    unfold HTLCEscrow.claimSwap at h
    by_cases hp : st.paused = true
    · simp [hp] at h
    · simp only [hp, if_false, Bool.false_eq_true] at h
      cases hm : HTLCEscrow.lookupSwap st.swaps swapId with
      | none => rw [hm] at h; cases h
      | some swap =>
        rw [hm] at h
        refine ⟨swap, rfl, ?_⟩
        by_cases h0 : swap.maker = 0
        · simp [h0] at h
        · simp only [h0, if_false, if_true, ite_false, ite_true] at h
          by_cases hst : swap.status ≠ HTLCEscrow.SwapStatus.ACTIVE
          · simp [hst] at h
          · simp only [hst, if_false, ite_false] at h
            by_cases hts : ¬ ts < swap.timelock
            · simp [hts] at h
            · simp only [hts, if_false, ite_false] at h
              by_cases hsec : keccak256 secret ≠ swap.secretHash
              · simp [hsec] at h
              · exact ⟨by simpa using hst, by simpa using hts,
                  by simpa using hsec⟩
  · intro sha256 db swapId secret
    unfold CrossChainSwapService.claimSwap
    cases hm : CrossChainSwapService.getSwapStatus db swapId with
    | none => simp [Except.isOk, Except.toBool]
    | some row =>
      by_cases hh : CryptoUtils.createHash sha256 secret = row.secret_hash
      · simp [hh, Except.isOk, Except.toBool]
      · simp [hh, Except.isOk, Except.toBool]

/-- Witness for C3 (amended): the on-chain part at the concrete 999-wei
escrow and the backend part at a one-row store. -/
theorem claim_guard_conditions_witness :
    (∃ swap, HTLCEscrow.lookupSwap st999.swaps 1 = some swap ∧
      swap.status = HTLCEscrow.SwapStatus.ACTIVE ∧ 100 < swap.timelock ∧
      (fun n => n + 1) 41 = swap.secretHash)
    ∧ ((CrossChainSwapService.claimSwap (fun s => s ++ "h")
          [{ id := "s1", secret_hash := "xh", status := "refunded",
             expiration_time := 0 }] "s1" "x").isOk = true ↔
        ∃ row, CrossChainSwapService.getSwapStatus
            [{ id := "s1", secret_hash := "xh", status := "refunded",
               expiration_time := 0 }] "s1" = some row ∧
          CryptoUtils.createHash (fun s => s ++ "h") "x" = row.secret_hash) :=
  ⟨claim_guard_conditions.1 (fun n => n + 1) st999 9 1 41 100
      ({ st999 with
          swaps := [(1, { swap999 with
                            status := HTLCEscrow.SwapStatus.CLAIMED })] },
       [HTLCEscrow.Transfer.eth 9 999]) (by rfl),
   claim_guard_conditions.2 (fun s => s ++ "h")
      [{ id := "s1", secret_hash := "xh", status := "refunded",
         expiration_time := 0 }] "s1" "x"⟩

/-- C3 counterexample: a swap whose stored status is refunded (terminal,
not ACTIVE) and whose expiration lies in the past is still successfully
claimed by the backend with a matching secret, and its record is
rewritten to completed. -/
theorem backend_claim_ignores_status_and_expiry_cex :
    CrossChainSwapService.claimSwap (fun s => s ++ "h")
        [{ id := "s1", secret_hash := "xh", status := "refunded",
           expiration_time := 0 }] "s1" "x" =
      Except.ok ([{ id := "s1", secret_hash := "xh", status := "completed",
                    expiration_time := 0 }], true)
    ∧ ("refunded" : String) ≠ "completed" := by
  refine ⟨by rfl, by decide⟩

/-- Relayer environment whose adapter calls all succeed. -/
def relayerEnv0 : RelayerService.RelayerEnv :=
  { randomBytes := [0],
    claimEthereum := fun _ _ => Except.ok "ethTx",
    claimTezos := fun _ _ => Except.ok "tezTx",
    refundEthereum := fun _ => Except.ok "r1",
    refundTezos := fun _ => Except.ok "r2" }

/-- Resolver monitoring environment: order filled, HTLC active, stored
order secret zz, all adapter writes succeed. -/
def monitorEnv0 : CrossChainResolverService.MonitorEnv :=
  { fusionStatus := fun _ => Except.ok (some "filled"),
    tezosActive := fun _ _ => Except.ok true,
    orderSecret := fun _ => Except.ok (some "zz"),
    tezosClaim := fun _ _ _ => Except.ok (),
    tezosRefund := fun _ _ => Except.ok () }

def rowDeposited : CrossChainResolverService.CcsRow :=
  { id := "c1", fusion_order_hash := "f1", secret_hash := "hq",
    status := "deposited", tezos_htlc_address := some "KT1",
    tezos_htlc_id := some 3 }

/-- C2: the reveal paths verify nothing.  RelayerService.revealSecret
generates a brand-new random secret, stores it on the swap and issues
both claim calls with it although its hash differs from the committed
hash; the resolver's revealSecretAndClaim likewise stores and publishes
the fetched order secret with no check against the swap's secret hash. -/
theorem reveal_publishes_unverified_secret :
    RelayerService.revealSecret relayerEnv0
        [{ id := "sw1", order_id := "o1", status := "deposited" }]
        "sw1" "deadbeef" =
      ([{ id := "sw1", order_id := "o1", status := "claimed",
          secret := some "00" }],
       [{ chain := "ethereum", op := "claim", contractSwapId := 1,
          secret := some "00" },
        { chain := "tezos", op := "claim", contractSwapId := 1,
          secret := some "00" }])
    ∧ CryptoUtils.verifySecret (fun s => s ++ "h") "00" "deadbeef" = false
    ∧ CrossChainResolverService.revealSecretAndClaim monitorEnv0 rowDeposited =
        ({ rowDeposited with secret := some "zz", status := "revealed" }, 1)
    ∧ CryptoUtils.verifySecret (fun s => s ++ "h") "zz"
        rowDeposited.secret_hash = false := by
  refine ⟨by rfl, by decide, by rfl, by decide⟩

def revealedRow : CrossChainResolverService.CcsRow :=
  { id := "s9", fusion_order_hash := "f9", secret_hash := "h9",
    status := "revealed", secret := some "sec",
    tezos_htlc_address := some "KT1x", tezos_htlc_id := some 3,
    tezos_timelock_hours := 1, fusion_auction_start_time := 0 }

/-- C4 counterexample: a swap whose secret is already revealed (status
revealed, secret stored) and whose timelock has passed is selected by
the timeout handler, receives a refund call, and is marked refunded. -/
theorem timeout_refunds_revealed_swap_cex :
    CrossChainResolverService.timeoutStep monitorEnv0 100000 revealedRow =
      ({ revealedRow with status := "refunded" }, 1)
    ∧ revealedRow.status = "revealed"
    ∧ revealedRow.secret = some "sec" := by
  refine ⟨by rfl, by rfl, by rfl⟩

/-- C4 (amended): the timeout handler touches a swap (modifies it or
issues a refund call) only if its timelock has passed and its status is
deposited or revealed — so an expired swap whose secret is revealed but
unclaimed is refunded too; swaps in any other status, or unexpired
ones, are left unchanged with no adapter call. -/
theorem timeout_refund_requires_expiry
    (env : CrossChainResolverService.MonitorEnv) (now : Nat)
    (row : CrossChainResolverService.CcsRow)
    (h : CrossChainResolverService.timeoutStep env now row ≠ (row, 0)) :
    CrossChainResolverService.timedOut now row = true ∧
      (row.status = "deposited" ∨ row.status = "revealed") := by
  unfold CrossChainResolverService.timeoutStep at h
  by_cases hc : ((row.status == "deposited" || row.status == "revealed") &&
      CrossChainResolverService.timedOut now row) = true
  · have := hc
    simp only [Bool.and_eq_true, Bool.or_eq_true, beq_iff_eq] at this
    exact ⟨this.2, this.1⟩
  · rw [if_neg hc] at h
    exact absurd rfl h

/-- Witness for C4 (amended) at the concrete expired revealed swap. -/
theorem timeout_refund_requires_expiry_witness :
    CrossChainResolverService.timedOut 100000 revealedRow = true ∧
      (revealedRow.status = "deposited" ∨ revealedRow.status = "revealed") :=
  timeout_refund_requires_expiry monitorEnv0 100000 revealedRow (by decide)

theorem monitorStep_cases (env : CrossChainResolverService.MonitorEnv)
    (row : CrossChainResolverService.CcsRow) :
    CrossChainResolverService.monitorStep env row = (row, 0) ∨
      (((CrossChainResolverService.monitorStep env row).1.status = "revealed" ∨
        (CrossChainResolverService.monitorStep env row).1.status = "failed") ∧
        (CrossChainResolverService.monitorStep env row).2 ≤ 1) := by
  unfold CrossChainResolverService.monitorStep
    CrossChainResolverService.checkAndRevealSecret
    CrossChainResolverService.revealSecretAndClaim
  by_cases hd : (row.status == "deposited") = true
  · rw [if_pos hd]
    cases hf : env.fusionStatus row.fusion_order_hash with
    | error e => left; rfl
    | ok st =>
      dsimp only
      by_cases hc : ((st == some "filled") &&
          (match row.tezos_htlc_address, row.tezos_htlc_id with
           | some addr, some htlcId =>
             CrossChainResolverService.checkTezosHTLCStatus env addr htlcId
           | _, _ => false)) = true
      · rw [if_pos hc]
        cases hs : env.orderSecret row.fusion_order_hash with
        | error e => right; exact ⟨Or.inr rfl, Nat.zero_le 1⟩
        | ok osec =>
          cases osec with
          | none => right; exact ⟨Or.inr rfl, Nat.zero_le 1⟩
          | some secret =>
            cases ha : row.tezos_htlc_address with
            | none => right; exact ⟨Or.inr rfl, Nat.zero_le 1⟩
            | some addr =>
              cases hi : row.tezos_htlc_id with
              | none => right; exact ⟨Or.inr rfl, Nat.zero_le 1⟩
              | some htlcId =>
                dsimp only
                cases hcl : env.tezosClaim addr htlcId secret with
                | ok u => right; exact ⟨Or.inl rfl, Nat.le_refl 1⟩
                | error e => right; exact ⟨Or.inr rfl, Nat.le_refl 1⟩
      · rw [if_neg hc]; left; rfl
  · rw [if_neg hd]; left; rfl

theorem monitorStep_idem (env : CrossChainResolverService.MonitorEnv)
    (row : CrossChainResolverService.CcsRow) :
    CrossChainResolverService.monitorStep env
        (CrossChainResolverService.monitorStep env row).1 =
      ((CrossChainResolverService.monitorStep env row).1, 0) := by
  rcases monitorStep_cases env row with h | ⟨hs, -⟩
  · rw [h]; exact h
  · rcases hs with h1 | h1 <;>
    · generalize hr : (CrossChainResolverService.monitorStep env row).1 = r1 at h1 ⊢
      unfold CrossChainResolverService.monitorStep
      rw [if_neg (by simp [h1])]

/-- C7: the monitoring step is idempotent and a no-op on terminal
swaps: a second immediate run leaves every row as the first run left it
and issues zero adapter writes, each run issues at most one adapter
write per swap, and a swap in a terminal status (claimed, refunded,
failed) is never modified and produces no error. -/
theorem monitor_tick_idempotent (env : CrossChainResolverService.MonitorEnv)
    (row : CrossChainResolverService.CcsRow)
    (rows : List CrossChainResolverService.CcsRow) :
    CrossChainResolverService.monitorStep env
        (CrossChainResolverService.monitorStep env row).1 =
      ((CrossChainResolverService.monitorStep env row).1, 0)
    ∧ (CrossChainResolverService.monitorStep env row).2 ≤ 1
    ∧ ((row.status = "claimed" ∨ row.status = "refunded" ∨
          row.status = "failed") →
        CrossChainResolverService.monitorStep env row = (row, 0))
    ∧ CrossChainResolverService.monitorTick env
        (CrossChainResolverService.monitorTick env rows).1 =
      ((CrossChainResolverService.monitorTick env rows).1, 0) := by
  refine ⟨monitorStep_idem env row, ?_, ?_, ?_⟩
  · rcases monitorStep_cases env row with h | ⟨-, h2⟩
    · rw [h]; exact Nat.zero_le 1
    · exact h2
  · intro hterm
    have hne : ¬ (row.status == "deposited") = true := by
      rcases hterm with h1 | h1 | h1 <;> simp [h1]
    unfold CrossChainResolverService.monitorStep
    rw [if_neg hne]
  · unfold CrossChainResolverService.monitorTick
    simp only [List.map_map]
    have hsum : (List.map
        ((fun r => (CrossChainResolverService.monitorStep env r).2) ∘
          fun r => (CrossChainResolverService.monitorStep env r).1) rows).sum
        = 0 := by
      induction rows with
      | nil => rfl
      | cons r rs ih =>
        simp only [List.map_cons, List.sum_cons, Function.comp_apply]
        rw [monitorStep_idem env r]
        simpa using ih
    have hmap : List.map
        ((fun r => (CrossChainResolverService.monitorStep env r).1) ∘
          fun r => (CrossChainResolverService.monitorStep env r).1) rows =
        List.map (fun r => (CrossChainResolverService.monitorStep env r).1)
          rows := by
      apply List.map_congr_left
      intro r _
      simp only [Function.comp_apply]
      rw [monitorStep_idem env r]
    rw [hmap, hsum]

/-- Witness for C7 at a concrete deposited row and terminal row. -/
theorem monitor_tick_idempotent_witness :
    CrossChainResolverService.monitorStep monitorEnv0
        (CrossChainResolverService.monitorStep monitorEnv0 rowDeposited).1 =
      ((CrossChainResolverService.monitorStep monitorEnv0 rowDeposited).1, 0)
    ∧ ({ rowDeposited with status := "claimed" }.status = "claimed" ∨
        { rowDeposited with status := "claimed" }.status = "refunded" ∨
        { rowDeposited with status := "claimed" }.status = "failed") ∧
      CrossChainResolverService.monitorStep monitorEnv0
          { rowDeposited with status := "claimed" } =
        ({ rowDeposited with status := "claimed" }, 0) :=
  ⟨(monitor_tick_idempotent monitorEnv0 rowDeposited []).1,
   Or.inl rfl,
   (monitor_tick_idempotent monitorEnv0
      { rowDeposited with status := "claimed" } []).2.2.1 (Or.inl rfl)⟩

/-- C8: every monitoring-cycle entry point catches adapter and database
errors and returns normally: for every environment, including ones
whose adapter or database calls fail, the periodic callback,
monitorAndRevealSecrets, handleTimeouts and processRefunds all return
an ok value — no exception propagates to the caller. -/
theorem monitoring_entry_points_never_throw :
    (∀ (env : CrossChainResolverService.MonitorEnv)
        (dbRead : Except String (List CrossChainResolverService.CcsRow)),
      (CrossChainResolverService.monitorAndRevealSecrets env dbRead).isOk
        = true)
    ∧ (∀ (env : CrossChainResolverService.MonitorEnv) (now : Nat)
        (dbRead : Except String (List CrossChainResolverService.CcsRow)),
      (CrossChainResolverService.handleTimeouts env now dbRead).isOk = true)
    ∧ (∀ (env : CrossChainResolverService.MonitorEnv)
        (opportunities : Except String (List String))
        (resolveOrder : String → Except String Unit)
        (dbRead : Except String (List CrossChainResolverService.CcsRow)),
      (CrossChainResolverService.monitoringCallback env opportunities
          resolveOrder dbRead).isOk = true)
    ∧ (∀ (renv : RelayerService.RelayerEnv)
        (expiredOrders : Except String (List RelayerService.ROrder))
        (swapLookup : String →
          Except String (Option RelayerService.RelayerSwap)),
      (RelayerService.processRefunds renv expiredOrders swapLookup).isOk
        = true)
    ∧ (∀ (renv : RelayerService.RelayerEnv)
        (activeSwaps : Except String (List RelayerService.RelayerSwap))
        (processSwap : RelayerService.RelayerSwap → Except String Unit),
      (RelayerService.monitorAndRevealSecrets renv activeSwaps
          processSwap).isOk = true) := by
  refine ⟨?_, ?_, ?_, ?_, ?_⟩
  · intro env dbRead
    cases dbRead <;> rfl
  · intro env now dbRead
    cases dbRead <;> rfl
  · intro env opportunities resolveOrder dbRead
    unfold CrossChainResolverService.monitoringCallback
    split <;> rfl
  · intro renv expiredOrders swapLookup
    unfold RelayerService.processRefunds
    split <;> rfl
  · intro renv activeSwaps processSwap
    unfold RelayerService.monitorAndRevealSecrets
    split <;> rfl

end SwapTezos
